import Mathlib

/-!
Verification of the Turnstil event check-in core.

This file gives a shallow embedding of the Turnstil repository's data
model (`src/core/models.py`) and of the operations the specification's
claims are about: the check-in transaction (`CheckInView.post` in
`src/core/views.py`), event registration (`EventRegisterView.post`),
the visible-contact filter (`Person.get_visible_contact`), and the
person-detail read path (`PersonDetailView.get` together with
`PersonSerializer`).

Modelling conventions:
- UUIDs and user primary keys are modelled as `Nat`.
- Timestamps are modelled as `Nat`; `isoformat` is the canonical string
  rendering of such an abstract timestamp.
- The database is an explicit `Store` record (lists of rows); each
  operation maps a store to a store plus a typed result, mirroring the
  sequential behaviour of the Django views.
- JSON dictionaries (`links`, `visibility`, `metadata`) are association
  lists.
-/

namespace Turnstil

/-- Roles of `User.Role` in `src/core/models.py`. -/
inductive Role
  | attendee
  | staff
  | organizer
  | admin
deriving DecidableEq, Repr

/-- The authenticated user performing a request (`User` model: primary
key plus role; the other Django auth fields play no part in the claims). -/
structure UserT where
  uid : Nat
  role : Role
deriving DecidableEq, Repr

/-- `Person` model from `src/core/models.py`: identity/profile row.
`pid` is the UUID primary key (the QR payload), `userId` the one-to-one
`user` foreign key.  `links` and `visibility` are JSON dictionaries. -/
structure Person where
  pid : Nat
  userId : Nat
  name : String
  email : String
  organization : String
  phone : String
  links : List (String × String)
  visibility : List (String × Bool)
deriving DecidableEq, Repr

/-- `Ticket.Status` choices from `src/core/models.py`. -/
inductive TicketStatus
  | issued
  | checked_in
  | canceled
  | expired
deriving DecidableEq, Repr

/-- `Event` model from `src/core/models.py`.  `created_by` is a nullable
foreign key to a user; `staff` the many-to-many staff user ids.

Modelled from the spec: the field `allow_walkins : bool` of the Event
data model (spec section 3).  Its declaration is absent from the `Event`
class in `src/core/models.py` as provided, although `CheckInView.post`
(`src/core/views.py` line 350) and `toggle_walkins`
(`src/core/web_views.py` lines 285-286) both read and write it; the
field is therefore modelled here from the spec's words. -/
structure Event where
  eid : Nat
  name : String
  location : String
  start_time : Nat
  end_time : Nat
  capacity : Nat
  created_by : Option Nat
  staff : List Nat
  allow_walkins : Bool
deriving DecidableEq, Repr

/-- `Ticket` model from `src/core/models.py`: links a person to an
event; `unique_together ['person', 'event']` is the storage-level
uniqueness constraint, stated below as `unique_tickets`. -/
structure Ticket where
  tid : Nat
  personId : Nat
  eventId : Nat
  status : TicketStatus
  issued_at : Nat
  checked_in_at : Option Nat
deriving DecidableEq, Repr

/-- `ScanLog.Result` choices from `src/core/models.py`. -/
inductive ScanResult
  | success
  | duplicate
  | not_registered
  | wrong_event
  | invalid
  | event_inactive
deriving DecidableEq, Repr

/-- `ScanLog` model from `src/core/models.py`: audit row for one scan
attempt.  `event` and `person` are nullable references. -/
structure ScanLog where
  event : Option Nat
  person : Option Nat
  actor : Option Nat
  result : ScanResult
  scanned_value : String
  metadata : List (String × String)
deriving DecidableEq, Repr

/-- The database state: the rows of the four tables, plus a counter
supplying fresh ticket primary keys. -/
structure Store where
  people : List Person
  events : List Event
  tickets : List Ticket
  scan_logs : List ScanLog
  next_ticket_id : Nat
deriving DecidableEq, Repr

/-- `Event.registration_count` property: count of non-canceled tickets
of the event. -/
def registration_count (st : Store) (e : Event) : Nat :=
  (st.tickets.filter
    (fun t => t.eventId == e.eid && t.status != TicketStatus.canceled)).length

/-- `Event.is_full` property: `capacity == 0` means unlimited, else
compare the registration count against the capacity. -/
def is_full (st : Store) (e : Event) : Bool :=
  if e.capacity == 0 then false
  else registration_count st e ≥ e.capacity

/-- `Event.is_active` property: current time inside the event window. -/
def is_active (e : Event) (now : Nat) : Bool :=
  e.start_time ≤ now && now ≤ e.end_time

/-- `Ticket.check_in` from `src/core/models.py`: set status to
`checked_in` and stamp `checked_in_at` with the current time. -/
def Ticket.check_in (t : Ticket) (now : Nat) : Ticket :=
  { t with status := TicketStatus.checked_in, checked_in_at := some now }

/-- The inline staff-authorization test of `CheckInView.post`
(`src/core/views.py` lines 334-338): admin role, or event creator, or
member of the event's staff set. -/
def is_staff_authorized (actor : UserT) (e : Event) : Bool :=
  actor.role == Role.admin
    || e.created_by == some actor.uid
    || e.staff.contains actor.uid

/-- The `event_id` argument of `CheckInView._log_scan`: the Python call
sites pass `None`, a raw UUID, or an `Event` instance. -/
inductive EventArg
  | null : EventArg
  | uuidArg : Nat → EventArg
  | evArg : Event → EventArg
deriving DecidableEq, Repr

/-- The `isinstance(event_id, Event)` dispatch inside `_log_scan`: only
an actual `Event` instance yields a non-null `event` reference. -/
def EventArg.resolve : EventArg → Option Nat
  | EventArg.evArg e => some e.eid
  | _ => none

/-- `CheckInView._log_scan` (`src/core/views.py` lines 418-427): append
one `ScanLog` row. -/
def log_scan (st : Store) (event_id : EventArg) (person : Option Nat)
    (actor : Option Nat) (result : ScanResult) (scanned_value : String)
    (metadata : List (String × String)) : Store :=
  { st with scan_logs := st.scan_logs ++
      [{ event := event_id.resolve, person := person, actor := actor,
         result := result, scanned_value := scanned_value,
         metadata := metadata }] }

/-- Shape of a check-in HTTP response: the `status`/`code`/`message`
body fields, the HTTP status, and the success payload fields. -/
structure Resp where
  status : String
  code : Option String
  message : Option String
  http : Nat
  person_name : Option String
  checked_in_at : Option String
  event_name : Option String
deriving DecidableEq, Repr

/-- An error response body as built throughout `CheckInView.post`. -/
def errResp (code message : String) (http : Nat) : Resp :=
  { status := "error", code := some code, message := some message,
    http := http, person_name := none, checked_in_at := none,
    event_name := none }

/-- The typed outcome of one check-in call (spec section 4.4). -/
inductive Outcome
  | Success
  | AlreadyCheckedIn
  | NotRegistered
  | TicketCanceled
  | EventFull
  | EventNotFound
  | PersonNotFound
  | Unauthorized
deriving DecidableEq, Repr

/-- Result of one check-in call: outcome, post-state, response. -/
structure CheckInResult where
  outcome : Outcome
  store : Store
  resp : Resp
deriving DecidableEq, Repr

/-- `datetime.isoformat` on the abstract timestamp. -/
def isoformat (t : Nat) : String := toString t

/-- Python `str` of an optional timestamp (`str(None) = "None"`). -/
def str_of_opt_time : Option Nat → String
  | none => "None"
  | some t => toString t

/-- Tail of `CheckInView.post` after ticket resolution
(`src/core/views.py` lines 376-416): duplicate check, canceled check,
then the success transition.  `st` already contains the walk-in ticket
when one was just created. -/
def check_in_tail (st : Store) (actor : UserT) (person : Person)
    (event : Event) (ticket : Ticket) (now : Nat) : CheckInResult :=
  if ticket.status == TicketStatus.checked_in then
    { outcome := Outcome.AlreadyCheckedIn,
      store := log_scan st (EventArg.evArg event) (some person.pid)
        (some actor.uid) ScanResult.duplicate ""
        [("checked_in_at", str_of_opt_time ticket.checked_in_at)],
      resp := errResp "DUPLICATE_CHECKIN"
        (person.name ++ " already checked in.") 409 }
  else if ticket.status == TicketStatus.canceled then
    { outcome := Outcome.TicketCanceled,
      store := log_scan st (EventArg.evArg event) (some person.pid)
        (some actor.uid) ScanResult.invalid ""
        [("reason", "ticket_canceled")],
      resp := errResp "TICKET_CANCELED"
        (person.name ++ " registration was canceled.") 409 }
  else
    let st2 : Store :=
      { st with
        tickets := st.tickets.map
          (fun t => if t.tid == ticket.tid then t.check_in now else t) }
    let st3 := log_scan st2 (EventArg.evArg event) (some person.pid)
      (some actor.uid) ScanResult.success "" []
    { outcome := Outcome.Success,
      store := st3,
      resp := { status := "success", code := none, message := none,
                http := 200, person_name := some person.name,
                checked_in_at := some (isoformat now),
                event_name := some event.name } }

/-- `CheckInView.post` (`src/core/views.py` lines 295-416): resolve
person, resolve event, staff authorization, ticket resolution with
walk-in policy, then `check_in_tail`. -/
def check_in_post (st : Store) (actor : UserT) (person_uuid event_uuid : Nat)
    (now : Nat) : CheckInResult :=
  match st.people.find? (fun p => p.pid == person_uuid) with
  | none =>
      { outcome := Outcome.PersonNotFound,
        store := log_scan st (EventArg.uuidArg event_uuid) none
          (some actor.uid) ScanResult.invalid (toString person_uuid) [],
        resp := errResp "INVALID" "QR code not recognized." 404 }
  | some person =>
    match st.events.find? (fun e => e.eid == event_uuid) with
    | none =>
        { outcome := Outcome.EventNotFound,
          store := log_scan st EventArg.null (some person.pid)
            (some actor.uid) ScanResult.invalid (toString event_uuid)
            [("reason", "event_not_found")],
          resp := errResp "INVALID" "Event not found." 404 }
    | some event =>
      if is_staff_authorized actor event then
        match st.tickets.find?
            (fun t => t.personId == person.pid && t.eventId == event.eid) with
        | none =>
          if event.allow_walkins then
            if is_full st event then
              { outcome := Outcome.EventFull,
                store := log_scan st (EventArg.evArg event) (some person.pid)
                  (some actor.uid) ScanResult.not_registered ""
                  [("reason", "walkin_capacity_full")],
                resp := errResp "EVENT_FULL"
                  "Walk-in denied - event is at capacity." 409 }
            else
              let new_ticket : Ticket :=
                { tid := st.next_ticket_id, personId := person.pid,
                  eventId := event.eid, status := TicketStatus.issued,
                  issued_at := now, checked_in_at := none }
              check_in_tail
                { st with
                  tickets := st.tickets ++ [new_ticket],
                  next_ticket_id := st.next_ticket_id + 1 }
                actor person event new_ticket now
          else
            { outcome := Outcome.NotRegistered,
              store := log_scan st (EventArg.evArg event) (some person.pid)
                (some actor.uid) ScanResult.not_registered "" [],
              resp := errResp "NOT_REGISTERED"
                (person.name ++ " is not registered for this event.") 404 }
        | some ticket => check_in_tail st actor person event ticket now
      else
        { outcome := Outcome.Unauthorized,
          store := st,
          resp := errResp "UNAUTHORIZED"
            "You are not staff for this event." 403 }

/-- Typed outcome of `EventRegisterView.post`. -/
inductive RegOutcome
  | created
  | reactivated
  | already_registered
  | event_full
  | event_not_found
  | no_person
deriving DecidableEq, Repr

/-- Result of one registration call: outcome and post-state. -/
structure RegResult where
  outcome : RegOutcome
  store : Store
deriving DecidableEq, Repr

/-- `EventRegisterView.post` (`src/core/views.py` lines 192-230):
capacity gate, then `Ticket.objects.get_or_create` with reactivation of
a canceled ticket.  The unresolvable-event and missing-person cases
abort the request with the store unchanged. -/
def event_register_post (st : Store) (actor : UserT) (event_uuid : Nat)
    (now : Nat) : RegResult :=
  match st.events.find? (fun e => e.eid == event_uuid) with
  | none => { outcome := RegOutcome.event_not_found, store := st }
  | some event =>
    if is_full st event then
      { outcome := RegOutcome.event_full, store := st }
    else
      match st.people.find? (fun p => p.userId == actor.uid) with
      | none => { outcome := RegOutcome.no_person, store := st }
      | some person =>
        match st.tickets.find?
            (fun t => t.personId == person.pid && t.eventId == event.eid) with
        | some ticket =>
          if ticket.status == TicketStatus.canceled then
            { outcome := RegOutcome.reactivated,
              store := { st with
                tickets := st.tickets.map (fun t =>
                  if t.tid == ticket.tid then
                    { t with status := TicketStatus.issued }
                  else t) } }
          else
            { outcome := RegOutcome.already_registered, store := st }
        | none =>
          { outcome := RegOutcome.created,
            store := { st with
              tickets := st.tickets ++
                [{ tid := st.next_ticket_id, personId := person.pid,
                   eventId := event.eid, status := TicketStatus.issued,
                   issued_at := now, checked_in_at := none }],
              next_ticket_id := st.next_ticket_id + 1 } }

/-- A contact-card value: a string field or the `links` dictionary. -/
inductive CVal
  | str : String → CVal
  | linkMap : List (String × String) → CVal
deriving DecidableEq, Repr

/-- Python truthiness of a contact value: non-empty string, non-empty
dictionary. -/
def CVal.truthy : CVal → Bool
  | CVal.str s => s != ""
  | CVal.linkMap l => !l.isEmpty

/-- `self.visibility.get(field, False)`: dictionary lookup defaulting to
false. -/
def vis_get (v : List (String × Bool)) (f : String) : Bool :=
  (v.lookup f).getD false

/-- `Person.get_visible_contact` (`src/core/models.py` lines 71-83):
name always present, then each of the four contact fields kept when the
visibility flag is set and the value is truthy. -/
def get_visible_contact (p : Person) : List (String × CVal) :=
  ("name", CVal.str p.name) ::
    ([("email", CVal.str p.email),
      ("organization", CVal.str p.organization),
      ("phone", CVal.str p.phone),
      ("links", CVal.linkMap p.links)].filter
      (fun fv => vis_get p.visibility fv.1 && fv.2.truthy))

/-- The field set serialized by `PersonSerializer`
(`src/core/serializers.py` lines 59-66): the full profile, including
email, phone, links and the visibility settings themselves. -/
structure PersonData where
  id : Nat
  name : String
  email : String
  organization : String
  phone : String
  links : List (String × String)
  visibility : List (String × Bool)
deriving DecidableEq, Repr

/-- `PersonSerializer` applied to a person row. -/
def person_serialize (p : Person) : PersonData :=
  { id := p.pid, name := p.name, email := p.email,
    organization := p.organization, phone := p.phone, links := p.links,
    visibility := p.visibility }

/-- `PersonDetailView.get` (`src/core/views.py` lines 103-111): resolve
the person (404 as `none`), then serialize; the source's owner test
selects the same serializer in both branches, kept verbatim here. -/
def person_detail_get (st : Store) (requester : UserT) (uuid : Nat) :
    Option PersonData :=
  match st.people.find? (fun p => p.pid == uuid) with
  | none => none
  | some person =>
      if person.userId == requester.uid then some (person_serialize person)
      else some (person_serialize person)

/-- Two ticket rows with different (person, event) pairs. -/
def distinct_pair (a b : Ticket) : Prop :=
  ¬(a.personId = b.personId ∧ a.eventId = b.eventId)

instance (a b : Ticket) : Decidable (distinct_pair a b) := by
  unfold distinct_pair; infer_instance

/-- The `unique_together ['person', 'event']` constraint of the Ticket
table: no two ticket rows share a (person, event) pair. -/
def unique_tickets (st : Store) : Prop :=
  st.tickets.Pairwise distinct_pair

instance (st : Store) : Decidable (unique_tickets st) := by
  unfold unique_tickets; infer_instance

/-- The `ScanLog.result` value `CheckInView.post` writes for each
outcome that reaches an audit write (every outcome except
`Unauthorized`, which writes nothing). -/
def audit_result : Outcome → ScanResult
  | Outcome.Success => ScanResult.success
  | Outcome.AlreadyCheckedIn => ScanResult.duplicate
  | Outcome.NotRegistered => ScanResult.not_registered
  | Outcome.EventFull => ScanResult.not_registered
  | Outcome.TicketCanceled => ScanResult.invalid
  | Outcome.PersonNotFound => ScanResult.invalid
  | Outcome.EventNotFound => ScanResult.invalid
  | Outcome.Unauthorized => ScanResult.invalid

/-- The error `code` body field each outcome is answered with in
`CheckInView.post` (`none` for the success body, which carries no
code). -/
def outcome_code : Outcome → Option String
  | Outcome.Success => none
  | Outcome.AlreadyCheckedIn => some "DUPLICATE_CHECKIN"
  | Outcome.NotRegistered => some "NOT_REGISTERED"
  | Outcome.TicketCanceled => some "TICKET_CANCELED"
  | Outcome.EventFull => some "EVENT_FULL"
  | Outcome.EventNotFound => some "INVALID"
  | Outcome.PersonNotFound => some "INVALID"
  | Outcome.Unauthorized => some "UNAUTHORIZED"

/-- The HTTP status each outcome is answered with in
`CheckInView.post`. -/
def outcome_http : Outcome → Nat
  | Outcome.Success => 200
  | Outcome.AlreadyCheckedIn => 409
  | Outcome.NotRegistered => 404
  | Outcome.TicketCanceled => 409
  | Outcome.EventFull => 409
  | Outcome.EventNotFound => 404
  | Outcome.PersonNotFound => 404
  | Outcome.Unauthorized => 403

/-- Replace every event's time window, leaving all other state alone:
used to state that check-in outcomes never depend on event timing. -/
def retime_events (st : Store) (a b : Nat) : Store :=
  { st with
    events := st.events.map
      (fun e => { e with start_time := a, end_time := b }) }

/-! Concrete rows used to instantiate the theorems below. -/

/-- A registered attendee with an issued ticket. -/
def wPerson : Person :=
  { pid := 1, userId := 10, name := "Alice", email := "a@b",
    organization := "", phone := "", links := [],
    visibility := [("email", true)] }

/-- An attendee with no ticket. -/
def wBob : Person :=
  { pid := 3, userId := 11, name := "Bob", email := "", organization := "",
    phone := "", links := [], visibility := [] }

/-- An event with capacity 1, walk-ins enabled, staff user 30. -/
def wEvent : Event :=
  { eid := 2, name := "Meetup", location := "", start_time := 100,
    end_time := 200, capacity := 1, created_by := some 20, staff := [30],
    allow_walkins := true }

/-- A staff member of `wEvent`. -/
def wStaff : UserT := { uid := 30, role := Role.staff }

/-- A staff-role user not connected to `wEvent`. -/
def wStranger : UserT := { uid := 99, role := Role.staff }

/-- The issued ticket of `wPerson` for `wEvent`. -/
def wTicket : Ticket :=
  { tid := 0, personId := 1, eventId := 2, status := TicketStatus.issued,
    issued_at := 5, checked_in_at := none }

/-- A store with both people, the event and the issued ticket. -/
def wStore : Store :=
  { people := [wPerson, wBob], events := [wEvent], tickets := [wTicket],
    scan_logs := [], next_ticket_id := 1 }

/-- The ticket of `wPerson` after a first successful check-in. -/
def wTicketDup : Ticket :=
  { wTicket with status := TicketStatus.checked_in, checked_in_at := some 150 }

/-- `wStore` after the first successful check-in of `wPerson`. -/
def wStoreDup : Store := { wStore with tickets := [wTicketDup] }

/-- An empty store: no person resolves. -/
def wStoreNoPeople : Store :=
  { people := [], events := [], tickets := [], scan_logs := [],
    next_ticket_id := 0 }

/-- `wStore` with the event removed: the person resolves, the event does
not. -/
def wStoreNoEvent : Store := { wStore with events := [] }

/-- A person whose email is marked visible but stored empty. -/
def c8_vis_person : Person :=
  { pid := 5, userId := 12, name := "Carol", email := "",
    organization := "", phone := "", links := [],
    visibility := [("email", true)] }

/-! Claim theorems. -/

/-- C3: when person and event both resolve but the caller is neither an
admin, nor the event creator, nor in the event's staff set, the call
returns `Unauthorized` with HTTP 403, writes no `ScanLog` row, and
leaves the entire store (tickets included) unchanged. -/
theorem c3_unauthorized_no_audit_no_mutation
    (st : Store) (actor : UserT) (pid eid now : Nat) (p : Person) (e : Event)
    (hp : st.people.find? (fun x => x.pid == pid) = some p)
    (he : st.events.find? (fun x => x.eid == eid) = some e)
    (hauth : is_staff_authorized actor e = false) :
    (check_in_post st actor pid eid now).outcome = Outcome.Unauthorized ∧
    (check_in_post st actor pid eid now).resp.http = 403 ∧
    (check_in_post st actor pid eid now).store = st := by
  simp [check_in_post, hp, he, hauth, errResp]

/-- Witness for C3: the unconnected staff user scans Alice at the
concrete event. -/
theorem c3_unauthorized_witness :
    (check_in_post wStore wStranger 1 2 150).outcome = Outcome.Unauthorized ∧
    (check_in_post wStore wStranger 1 2 150).resp.http = 403 ∧
    (check_in_post wStore wStranger 1 2 150).store = wStore :=
  c3_unauthorized_no_audit_no_mutation wStore wStranger 1 2 150 wPerson wEvent
    (by decide) (by decide) (by decide)

/-- C4: a scan of a ticket already `checked_in` returns
`AlreadyCheckedIn` with HTTP 409, appends exactly one `ScanLog` row with
result `duplicate` whose metadata carries the existing `checked_in_at`,
and leaves every ticket row (in particular the ticket's status and
`checked_in_at` set by the first check-in) unchanged. -/
theorem c4_duplicate_scan
    (st : Store) (actor : UserT) (pid eid now : Nat) (p : Person)
    (e : Event) (t : Ticket)
    (hp : st.people.find? (fun x => x.pid == pid) = some p)
    (he : st.events.find? (fun x => x.eid == eid) = some e)
    (hauth : is_staff_authorized actor e = true)
    (ht : st.tickets.find?
      (fun x => x.personId == p.pid && x.eventId == e.eid) = some t)
    (hstat : t.status = TicketStatus.checked_in) :
    (check_in_post st actor pid eid now).outcome = Outcome.AlreadyCheckedIn ∧
    (check_in_post st actor pid eid now).resp.http = 409 ∧
    (check_in_post st actor pid eid now).resp.code = some "DUPLICATE_CHECKIN" ∧
    (check_in_post st actor pid eid now).store.tickets = st.tickets ∧
    (check_in_post st actor pid eid now).store.scan_logs = st.scan_logs ++
      [{ event := some e.eid, person := some p.pid, actor := some actor.uid,
         result := ScanResult.duplicate, scanned_value := "",
         metadata := [("checked_in_at", str_of_opt_time t.checked_in_at)] }] := by
  simp [check_in_post, check_in_tail, log_scan, EventArg.resolve, hp, he,
    hauth, ht, hstat, errResp]

/-- Witness for C4: the staff member rescans Alice after her first
check-in. -/
theorem c4_duplicate_scan_witness :
    (check_in_post wStoreDup wStaff 1 2 160).outcome = Outcome.AlreadyCheckedIn ∧
    (check_in_post wStoreDup wStaff 1 2 160).resp.http = 409 ∧
    (check_in_post wStoreDup wStaff 1 2 160).resp.code = some "DUPLICATE_CHECKIN" ∧
    (check_in_post wStoreDup wStaff 1 2 160).store.tickets = wStoreDup.tickets ∧
    (check_in_post wStoreDup wStaff 1 2 160).store.scan_logs = wStoreDup.scan_logs ++
      [{ event := some wEvent.eid, person := some wPerson.pid,
         actor := some wStaff.uid, result := ScanResult.duplicate,
         scanned_value := "",
         metadata := [("checked_in_at", str_of_opt_time wTicketDup.checked_in_at)] }] :=
  c4_duplicate_scan wStoreDup wStaff 1 2 160 wPerson wEvent wTicketDup
    (by decide) (by decide) (by decide) (by decide) (by decide)

/-- C7 counterexample: an unresolvable person and an unresolvable event
are answered with the same response code `INVALID` and the same HTTP
status 404, so the outcome-to-code mapping is not injective and
`PersonNotFound` and `EventNotFound` do not carry distinct codes. -/
theorem c7_counterexample_shared_invalid_code :
    (check_in_post wStoreNoPeople wStranger 1 2 0).outcome = Outcome.PersonNotFound ∧
    (check_in_post wStoreNoEvent wStranger 1 2 0).outcome = Outcome.EventNotFound ∧
    (check_in_post wStoreNoPeople wStranger 1 2 0).resp.code =
      (check_in_post wStoreNoEvent wStranger 1 2 0).resp.code ∧
    (check_in_post wStoreNoPeople wStranger 1 2 0).resp.code = some "INVALID" ∧
    (check_in_post wStoreNoPeople wStranger 1 2 0).resp.http = 404 ∧
    (check_in_post wStoreNoEvent wStranger 1 2 0).resp.http = 404 := by
  decide

/-- C8 counterexample: a field marked visible whose stored value is
empty is absent from the visible-contact map, so membership is not
equivalent to the visibility flag alone. -/
theorem c8_counterexample_visible_empty_field_absent :
    vis_get c8_vis_person.visibility "email" = true ∧
    (get_visible_contact c8_vis_person).lookup "email" = none := by
  decide

/-- C10: the person-detail GET endpoint serializes the resolved person
with the full `PersonSerializer` regardless of the requesting identity
(the owner test selects the same serializer on both branches), so any
two requesters receive the identical response and visibility settings do
not restrict this read path; the serialization carries email, phone,
links and the visibility settings themselves. -/
theorem c10_person_detail_ignores_visibility :
    (∀ (st : Store) (requester : UserT) (uuid : Nat),
      person_detail_get st requester uuid =
        (st.people.find? (fun p => p.pid == uuid)).map person_serialize) ∧
    (∀ p : Person,
      (person_serialize p).email = p.email ∧
      (person_serialize p).phone = p.phone ∧
      (person_serialize p).links = p.links ∧
      (person_serialize p).visibility = p.visibility) := by
  constructor
  · intro st requester uuid
    unfold person_detail_get
    cases st.people.find? (fun p => p.pid == uuid) with
    | none => rfl
    | some person => simp [ite_self]
  · intro p
    exact ⟨rfl, rfl, rfl, rfl⟩

/-- C5: an authorized scan whose ticket resolves with status `issued`,
or is walk-in-created (walk-ins enabled, event not full), transitions
that ticket to `checked_in` with `checked_in_at = now`, appends exactly
one `ScanLog` row with result `success`, and answers with status
`success` carrying the person's name, the ISO-rendered `checked_in_at`,
and the event's name. -/
theorem c5_success_path
    (st : Store) (actor : UserT) (pid eid now : Nat) (p : Person) (e : Event)
    (hp : st.people.find? (fun x => x.pid == pid) = some p)
    (he : st.events.find? (fun x => x.eid == eid) = some e)
    (hauth : is_staff_authorized actor e = true)
    (hticket :
      (∃ t, st.tickets.find?
          (fun x => x.personId == p.pid && x.eventId == e.eid) = some t ∧
        t.status = TicketStatus.issued) ∨
      (st.tickets.find?
          (fun x => x.personId == p.pid && x.eventId == e.eid) = none ∧
        e.allow_walkins = true ∧ is_full st e = false)) :
    (check_in_post st actor pid eid now).outcome = Outcome.Success ∧
    (check_in_post st actor pid eid now).resp.status = "success" ∧
    (check_in_post st actor pid eid now).resp.http = 200 ∧
    (check_in_post st actor pid eid now).resp.person_name = some p.name ∧
    (check_in_post st actor pid eid now).resp.checked_in_at =
      some (isoformat now) ∧
    (check_in_post st actor pid eid now).resp.event_name = some e.name ∧
    (∃ t', t' ∈ (check_in_post st actor pid eid now).store.tickets ∧
      t'.personId = p.pid ∧ t'.eventId = e.eid ∧
      t'.status = TicketStatus.checked_in ∧ t'.checked_in_at = some now) ∧
    (check_in_post st actor pid eid now).store.scan_logs = st.scan_logs ++
      [{ event := some e.eid, person := some p.pid, actor := some actor.uid,
         result := ScanResult.success, scanned_value := "",
         metadata := [] }] := by
  rcases hticket with ⟨t, ht, hstat⟩ | ⟨ht, hw, hf⟩
  · have htmem := List.mem_of_find?_eq_some ht
    have hpred := List.find?_some ht
    rw [Bool.and_eq_true, beq_iff_eq, beq_iff_eq] at hpred
    obtain ⟨hpP, hpE⟩ := hpred
    have hdup : (t.status == TicketStatus.checked_in) = false := by
      rw [hstat]; rfl
    have hcan : (t.status == TicketStatus.canceled) = false := by
      rw [hstat]; rfl
    simp only [check_in_post, check_in_tail, hp, he, hauth, ht, hdup, hcan,
      if_true, if_false, Bool.false_eq_true, log_scan, EventArg.resolve,
      true_and, and_true]
    refine ⟨t.check_in now, ?_, hpP, hpE, rfl, rfl⟩
    simp only [List.mem_map]
    exact ⟨t, htmem, by simp [Ticket.check_in]⟩
  · have hdup : (TicketStatus.issued == TicketStatus.checked_in) = false := rfl
    have hcan : (TicketStatus.issued == TicketStatus.canceled) = false := rfl
    simp only [check_in_post, check_in_tail, hp, he, hauth, ht, hw, hf, hdup,
      hcan, if_true, if_false, Bool.false_eq_true, log_scan, EventArg.resolve,
      true_and, and_true]
    refine ⟨⟨st.next_ticket_id, p.pid, e.eid, TicketStatus.checked_in,
      now, some now⟩, ?_, rfl, rfl, rfl, rfl⟩
    simp only [List.mem_map]
    refine ⟨⟨st.next_ticket_id, p.pid, e.eid, TicketStatus.issued,
      now, none⟩, ?_, by simp [Ticket.check_in]⟩
    exact List.mem_append_right _ (List.mem_singleton.mpr rfl)

/-- Witness for C5: the staff member scans Alice's issued ticket. -/
theorem c5_success_path_witness :
    (check_in_post wStore wStaff 1 2 150).outcome = Outcome.Success ∧
    (check_in_post wStore wStaff 1 2 150).resp.status = "success" ∧
    (check_in_post wStore wStaff 1 2 150).resp.http = 200 ∧
    (check_in_post wStore wStaff 1 2 150).resp.person_name = some wPerson.name ∧
    (check_in_post wStore wStaff 1 2 150).resp.checked_in_at =
      some (isoformat 150) ∧
    (check_in_post wStore wStaff 1 2 150).resp.event_name = some wEvent.name ∧
    (∃ t', t' ∈ (check_in_post wStore wStaff 1 2 150).store.tickets ∧
      t'.personId = wPerson.pid ∧ t'.eventId = wEvent.eid ∧
      t'.status = TicketStatus.checked_in ∧ t'.checked_in_at = some 150) ∧
    (check_in_post wStore wStaff 1 2 150).store.scan_logs = wStore.scan_logs ++
      [{ event := some wEvent.eid, person := some wPerson.pid,
         actor := some wStaff.uid, result := ScanResult.success,
         scanned_value := "", metadata := [] }] :=
  c5_success_path wStore wStaff 1 2 150 wPerson wEvent
    (by decide) (by decide) (by decide)
    (Or.inl ⟨wTicket, by decide, by decide⟩)

/-- C2: an authorized scan where person and event resolve but no ticket
exists for the pair follows the walk-in policy: with walk-ins enabled
and the event not full, a new ticket for the pair is created (one more
ticket row) and the call proceeds to a successful check-in; with
walk-ins enabled but the event full, one `not_registered` log with
reason `walkin_capacity_full` is written and `EventFull` (409) returned
with no ticket created; with walk-ins disabled, one `not_registered` log
is written and `NotRegistered` (404) returned with no ticket created. -/
theorem c2_walk_in_policy
    (st : Store) (actor : UserT) (pid eid now : Nat) (p : Person) (e : Event)
    (hp : st.people.find? (fun x => x.pid == pid) = some p)
    (he : st.events.find? (fun x => x.eid == eid) = some e)
    (hauth : is_staff_authorized actor e = true)
    (ht : st.tickets.find?
      (fun x => x.personId == p.pid && x.eventId == e.eid) = none) :
    (e.allow_walkins = true → is_full st e = false →
      (check_in_post st actor pid eid now).outcome = Outcome.Success ∧
      (check_in_post st actor pid eid now).store.tickets.length =
        st.tickets.length + 1 ∧
      (∃ t', t' ∈ (check_in_post st actor pid eid now).store.tickets ∧
        t'.personId = p.pid ∧ t'.eventId = e.eid)) ∧
    (e.allow_walkins = true → is_full st e = true →
      (check_in_post st actor pid eid now).outcome = Outcome.EventFull ∧
      (check_in_post st actor pid eid now).resp.http = 409 ∧
      (check_in_post st actor pid eid now).resp.code = some "EVENT_FULL" ∧
      (check_in_post st actor pid eid now).store.tickets = st.tickets ∧
      (check_in_post st actor pid eid now).store.scan_logs = st.scan_logs ++
        [{ event := some e.eid, person := some p.pid,
           actor := some actor.uid, result := ScanResult.not_registered,
           scanned_value := "",
           metadata := [("reason", "walkin_capacity_full")] }]) ∧
    (e.allow_walkins = false →
      (check_in_post st actor pid eid now).outcome = Outcome.NotRegistered ∧
      (check_in_post st actor pid eid now).resp.http = 404 ∧
      (check_in_post st actor pid eid now).resp.code = some "NOT_REGISTERED" ∧
      (check_in_post st actor pid eid now).store.tickets = st.tickets ∧
      (check_in_post st actor pid eid now).store.scan_logs = st.scan_logs ++
        [{ event := some e.eid, person := some p.pid,
           actor := some actor.uid, result := ScanResult.not_registered,
           scanned_value := "", metadata := [] }]) := by
  refine ⟨fun hw hf => ?_, fun hw hf => ?_, fun hw => ?_⟩
  · have hdup : (TicketStatus.issued == TicketStatus.checked_in) = false := rfl
    have hcan : (TicketStatus.issued == TicketStatus.canceled) = false := rfl
    simp only [check_in_post, check_in_tail, hp, he, hauth, ht, hw, hf, hdup,
      hcan, if_true, if_false, Bool.false_eq_true, log_scan,
      EventArg.resolve, true_and, and_true, List.length_map,
      List.length_append, List.length_cons, List.length_nil]
    refine ⟨⟨st.next_ticket_id, p.pid, e.eid, TicketStatus.checked_in,
      now, some now⟩, ?_, rfl, rfl⟩
    simp only [List.mem_map]
    refine ⟨⟨st.next_ticket_id, p.pid, e.eid, TicketStatus.issued,
      now, none⟩, ?_, by simp [Ticket.check_in]⟩
    exact List.mem_append_right _ (List.mem_singleton.mpr rfl)
  · simp [check_in_post, hp, he, hauth, ht, hw, hf, log_scan,
      EventArg.resolve, errResp]
  · simp [check_in_post, hp, he, hauth, ht, hw, log_scan,
      EventArg.resolve, errResp]

/-- Witness for C2: the staff member scans ticketless Bob at the
capacity-1 event that already holds Alice's ticket. -/
theorem c2_walk_in_policy_witness :
    (wEvent.allow_walkins = true → is_full wStore wEvent = false →
      (check_in_post wStore wStaff 3 2 150).outcome = Outcome.Success ∧
      (check_in_post wStore wStaff 3 2 150).store.tickets.length =
        wStore.tickets.length + 1 ∧
      (∃ t', t' ∈ (check_in_post wStore wStaff 3 2 150).store.tickets ∧
        t'.personId = wBob.pid ∧ t'.eventId = wEvent.eid)) ∧
    (wEvent.allow_walkins = true → is_full wStore wEvent = true →
      (check_in_post wStore wStaff 3 2 150).outcome = Outcome.EventFull ∧
      (check_in_post wStore wStaff 3 2 150).resp.http = 409 ∧
      (check_in_post wStore wStaff 3 2 150).resp.code = some "EVENT_FULL" ∧
      (check_in_post wStore wStaff 3 2 150).store.tickets = wStore.tickets ∧
      (check_in_post wStore wStaff 3 2 150).store.scan_logs =
        wStore.scan_logs ++
        [{ event := some wEvent.eid, person := some wBob.pid,
           actor := some wStaff.uid, result := ScanResult.not_registered,
           scanned_value := "",
           metadata := [("reason", "walkin_capacity_full")] }]) ∧
    (wEvent.allow_walkins = false →
      (check_in_post wStore wStaff 3 2 150).outcome = Outcome.NotRegistered ∧
      (check_in_post wStore wStaff 3 2 150).resp.http = 404 ∧
      (check_in_post wStore wStaff 3 2 150).resp.code = some "NOT_REGISTERED" ∧
      (check_in_post wStore wStaff 3 2 150).store.tickets = wStore.tickets ∧
      (check_in_post wStore wStaff 3 2 150).store.scan_logs =
        wStore.scan_logs ++
        [{ event := some wEvent.eid, person := some wBob.pid,
           actor := some wStaff.uid, result := ScanResult.not_registered,
           scanned_value := "", metadata := [] }]) :=
  c2_walk_in_policy wStore wStaff 3 2 150 wBob wEvent
    (by decide) (by decide) (by decide) (by decide)

/-- C1: every check-in call whose outcome is not `Unauthorized` appends
exactly one `ScanLog` row, and that row's `result` matches the returned
outcome (`success` for `Success`, `duplicate` for `AlreadyCheckedIn`,
`not_registered` for `NotRegistered` and `EventFull`, `invalid` for
`TicketCanceled`, `PersonNotFound` and `EventNotFound`). -/
theorem c1_audit_completeness
    (st : Store) (actor : UserT) (pid eid now : Nat)
    (h : (check_in_post st actor pid eid now).outcome ≠ Outcome.Unauthorized) :
    ∃ entry : ScanLog,
      (check_in_post st actor pid eid now).store.scan_logs =
        st.scan_logs ++ [entry] ∧
      entry.result = audit_result (check_in_post st actor pid eid now).outcome := by
  cases hfp : st.people.find? (fun x => x.pid == pid) with
  | none =>
      refine ⟨{ event := none, person := none, actor := some actor.uid,
                result := ScanResult.invalid,
                scanned_value := toString pid,
                metadata := [] }, ?_, ?_⟩ <;>
        simp [check_in_post, hfp, log_scan, EventArg.resolve, audit_result]
  | some p =>
    cases hfe : st.events.find? (fun x => x.eid == eid) with
    | none =>
        refine ⟨{ event := none, person := some p.pid,
                  actor := some actor.uid, result := ScanResult.invalid,
                  scanned_value := toString eid,
                  metadata := [("reason", "event_not_found")] }, ?_, ?_⟩ <;>
          simp [check_in_post, hfp, hfe, log_scan, EventArg.resolve,
            audit_result]
    | some e =>
      cases hb : is_staff_authorized actor e with
      | false => simp [check_in_post, hfp, hfe, hb] at h
      | true =>
        cases hft : st.tickets.find?
            (fun x => x.personId == p.pid && x.eventId == e.eid) with
        | none =>
          cases hwk : e.allow_walkins with
          | false =>
              refine ⟨{ event := some e.eid, person := some p.pid,
                        actor := some actor.uid,
                        result := ScanResult.not_registered,
                        scanned_value := "",
                        metadata := [] }, ?_, ?_⟩ <;>
                simp [check_in_post, hfp, hfe, hb, hft, hwk, log_scan,
                  EventArg.resolve, audit_result]
          | true =>
            cases hfl : is_full st e with
            | true =>
                refine ⟨{ event := some e.eid, person := some p.pid,
                          actor := some actor.uid,
                          result := ScanResult.not_registered,
                          scanned_value := "",
                          metadata := [("reason", "walkin_capacity_full")] },
                  ?_, ?_⟩ <;>
                  simp [check_in_post, hfp, hfe, hb, hft, hwk, hfl, log_scan,
                    EventArg.resolve, audit_result]
            | false =>
                have hdup :
                    (TicketStatus.issued == TicketStatus.checked_in) = false := rfl
                have hcan :
                    (TicketStatus.issued == TicketStatus.canceled) = false := rfl
                refine ⟨{ event := some e.eid, person := some p.pid,
                          actor := some actor.uid,
                          result := ScanResult.success,
                          scanned_value := "", metadata := [] }, ?_, ?_⟩ <;>
                  simp [check_in_post, check_in_tail, hfp, hfe, hb, hft, hwk,
                    hfl, hdup, hcan, log_scan, EventArg.resolve, audit_result]
        | some t =>
          cases hts : t.status with
          | issued =>
              have hdup : (t.status == TicketStatus.checked_in) = false := by
                rw [hts]; rfl
              have hcan : (t.status == TicketStatus.canceled) = false := by
                rw [hts]; rfl
              refine ⟨{ event := some e.eid, person := some p.pid,
                        actor := some actor.uid,
                        result := ScanResult.success,
                        scanned_value := "", metadata := [] }, ?_, ?_⟩ <;>
                simp [check_in_post, check_in_tail, hfp, hfe, hb, hft, hdup,
                  hcan, log_scan, EventArg.resolve, audit_result]
          | expired =>
              have hdup : (t.status == TicketStatus.checked_in) = false := by
                rw [hts]; rfl
              have hcan : (t.status == TicketStatus.canceled) = false := by
                rw [hts]; rfl
              refine ⟨{ event := some e.eid, person := some p.pid,
                        actor := some actor.uid,
                        result := ScanResult.success,
                        scanned_value := "", metadata := [] }, ?_, ?_⟩ <;>
                simp [check_in_post, check_in_tail, hfp, hfe, hb, hft, hdup,
                  hcan, log_scan, EventArg.resolve, audit_result]
          | checked_in =>
              have hdup : (t.status == TicketStatus.checked_in) = true := by
                rw [hts]; rfl
              refine ⟨{ event := some e.eid, person := some p.pid,
                        actor := some actor.uid,
                        result := ScanResult.duplicate,
                        scanned_value := "",
                        metadata := [("checked_in_at",
                          str_of_opt_time t.checked_in_at)] }, ?_, ?_⟩ <;>
                simp [check_in_post, check_in_tail, hfp, hfe, hb, hft, hdup,
                  log_scan, EventArg.resolve, audit_result]
          | canceled =>
              have hdup : (t.status == TicketStatus.checked_in) = false := by
                rw [hts]; rfl
              have hcan : (t.status == TicketStatus.canceled) = true := by
                rw [hts]; rfl
              refine ⟨{ event := some e.eid, person := some p.pid,
                        actor := some actor.uid,
                        result := ScanResult.invalid,
                        scanned_value := "",
                        metadata := [("reason", "ticket_canceled")] }, ?_, ?_⟩ <;>
                simp [check_in_post, check_in_tail, hfp, hfe, hb, hft, hdup,
                  hcan, log_scan, EventArg.resolve, audit_result]

/-- Witness for C1: the staff member's successful scan of Alice appends
one matching `success` audit row. -/
theorem c1_audit_completeness_witness :
    ∃ entry : ScanLog,
      (check_in_post wStore wStaff 1 2 150).store.scan_logs =
        wStore.scan_logs ++ [entry] ∧
      entry.result = audit_result (check_in_post wStore wStaff 1 2 150).outcome :=
  c1_audit_completeness wStore wStaff 1 2 150 (by decide)

/-- An in-place row update that keeps every ticket's (person, event)
pair preserves pairwise distinctness. -/
theorem pairwise_distinct_map (l : List Ticket) (f : Ticket → Ticket)
    (hf : ∀ t, (f t).personId = t.personId ∧ (f t).eventId = t.eventId)
    (h : l.Pairwise distinct_pair) : (l.map f).Pairwise distinct_pair := by
  refine List.Pairwise.map f (fun a b hab => ?_) h
  intro hcon
  obtain ⟨h1, h2⟩ := hcon
  rw [(hf a).1, (hf b).1] at h1
  rw [(hf a).2, (hf b).2] at h2
  exact hab ⟨h1, h2⟩

/-- Appending a ticket whose (person, event) pair occurs in no existing
row preserves pairwise distinctness. -/
theorem pairwise_distinct_append (l : List Ticket) (nt : Ticket)
    (hno : ∀ t ∈ l, distinct_pair t nt)
    (h : l.Pairwise distinct_pair) :
    (l ++ [nt]).Pairwise distinct_pair := by
  rw [List.pairwise_append]
  refine ⟨h, List.pairwise_singleton _ _, ?_⟩
  intro a ha b hb
  rw [List.mem_singleton] at hb
  subst hb
  exact hno a ha

/-- When `Ticket.objects.get` found no row for the pair, every existing
row differs from a fresh ticket carrying that pair. -/
theorem pairwise_distinct_of_find?_none (l : List Ticket) (pidv eidv : Nat)
    (hft : l.find?
      (fun x => x.personId == pidv && x.eventId == eidv) = none)
    (nt : Ticket) (hp : nt.personId = pidv) (he : nt.eventId = eidv) :
    ∀ t ∈ l, distinct_pair t nt := by
  intro t htmem hcon
  have hmiss := List.find?_eq_none.mp hft t htmem
  apply hmiss
  rw [Bool.and_eq_true, beq_iff_eq, beq_iff_eq]
  exact ⟨hp ▸ hcon.1, he ▸ hcon.2⟩

/-- Every branch of `check_in_tail` preserves ticket uniqueness: the
first two branches only append a log row, the success branch updates
ticket rows in place without touching their (person, event) pairs. -/
theorem check_in_tail_unique (st : Store) (actor : UserT) (person : Person)
    (event : Event) (ticket : Ticket) (now : Nat)
    (h : unique_tickets st) :
    unique_tickets (check_in_tail st actor person event ticket now).store := by
  unfold check_in_tail
  split
  · exact h
  · split
    · exact h
    · exact pairwise_distinct_map st.tickets _
        (fun t => by split <;> exact ⟨rfl, rfl⟩) h

/-- C6: the check-in transaction (including walk-in auto-registration
and the checked-in transition) and event registration (including
creation and reactivation) each map a store satisfying the
one-ticket-per-(person, event) constraint to a store still satisfying
it. -/
theorem c6_ticket_uniqueness
    (st : Store) (actor : UserT) (pid eid ev now : Nat)
    (h : unique_tickets st) :
    unique_tickets (check_in_post st actor pid eid now).store ∧
    unique_tickets (event_register_post st actor ev now).store := by
  constructor
  · cases hfp : st.people.find? (fun x => x.pid == pid) with
    | none => simp only [check_in_post, hfp]; exact h
    | some p =>
      cases hfe : st.events.find? (fun x => x.eid == eid) with
      | none => simp only [check_in_post, hfp, hfe]; exact h
      | some e =>
        cases hb : is_staff_authorized actor e with
        | false =>
            simp only [check_in_post, hfp, hfe, hb, Bool.false_eq_true,
              if_false]
            exact h
        | true =>
          cases hft : st.tickets.find?
              (fun x => x.personId == p.pid && x.eventId == e.eid) with
          | some t =>
              simp only [check_in_post, hfp, hfe, hb, hft, if_true]
              exact check_in_tail_unique st actor p e t now h
          | none =>
            cases hwk : e.allow_walkins with
            | false =>
                simp only [check_in_post, hfp, hfe, hb, hft, hwk,
                  Bool.false_eq_true, if_false, if_true]
                exact h
            | true =>
              cases hfl : is_full st e with
              | true =>
                  simp only [check_in_post, hfp, hfe, hb, hft, hwk, hfl,
                    if_true]
                  exact h
              | false =>
                  simp only [check_in_post, hfp, hfe, hb, hft, hwk, hfl,
                    Bool.false_eq_true, if_false, if_true]
                  refine check_in_tail_unique _ actor p e _ now ?_
                  exact pairwise_distinct_append st.tickets _
                    (pairwise_distinct_of_find?_none st.tickets p.pid e.eid
                      hft _ rfl rfl) h
  · cases hfe : st.events.find? (fun x => x.eid == ev) with
    | none => simp only [event_register_post, hfe]; exact h
    | some e =>
      cases hfl : is_full st e with
      | true =>
          simp only [event_register_post, hfe, hfl, if_true]
          exact h
      | false =>
        cases hfp : st.people.find? (fun x => x.userId == actor.uid) with
        | none =>
            simp only [event_register_post, hfe, hfl, hfp,
              Bool.false_eq_true, if_false]
            exact h
        | some person =>
          cases hft : st.tickets.find?
              (fun x => x.personId == person.pid && x.eventId == e.eid) with
          | some ticket =>
            cases hcs : ticket.status == TicketStatus.canceled with
            | false =>
                simp only [event_register_post, hfe, hfl, hfp, hft, hcs,
                  Bool.false_eq_true, if_false]
                exact h
            | true =>
                simp only [event_register_post, hfe, hfl, hfp, hft, hcs,
                  Bool.false_eq_true, if_false, if_true]
                exact pairwise_distinct_map st.tickets _
                  (fun t => by split <;> exact ⟨rfl, rfl⟩) h
          | none =>
              simp only [event_register_post, hfe, hfl, hfp, hft,
                Bool.false_eq_true, if_false]
              exact pairwise_distinct_append st.tickets _
                (pairwise_distinct_of_find?_none st.tickets person.pid e.eid
                  hft _ rfl rfl) h

/-- Witness for C6: the concrete store satisfies the constraint and
still does after a check-in call and a registration call. -/
theorem c6_ticket_uniqueness_witness :
    unique_tickets (check_in_post wStore wStaff 3 2 150).store ∧
    unique_tickets (event_register_post wStore wStaff 2 150).store :=
  c6_ticket_uniqueness wStore wStaff 3 2 2 150 (by decide)

/-- A log list extended by one row avoiding a given result: every
member is old or avoids that result. -/
theorem mem_append_singleton_result (old : List ScanLog) (entry : ScanLog)
    (hres : entry.result ≠ ScanResult.event_inactive) :
    ∀ lg ∈ old ++ [entry],
      lg ∈ old ∨ lg.result ≠ ScanResult.event_inactive := by
  intro lg hlg
  rcases List.mem_append.mp hlg with h1 | h1
  · exact Or.inl h1
  · rw [List.mem_singleton] at h1
    subst h1
    exact Or.inr hres

/-- The `resp.code` and `resp.http` of a check-in call are functions of
its outcome alone, given by `outcome_code` and `outcome_http`. -/
theorem check_in_resp_meta (st : Store) (actor : UserT) (pid eid now : Nat) :
    (check_in_post st actor pid eid now).resp.code =
      outcome_code (check_in_post st actor pid eid now).outcome ∧
    (check_in_post st actor pid eid now).resp.http =
      outcome_http (check_in_post st actor pid eid now).outcome := by
  unfold check_in_post check_in_tail
  repeat' split
  all_goals simp [errResp, outcome_code, outcome_http]

/-- C7 amended: the outcome-to-response mapping of the check-in endpoint
is injective on (code, HTTP status) pairs except that `PersonNotFound`
and `EventNotFound` share the pair (`INVALID`, 404): two calls answered
with the same code and status have the same outcome or have those two
outcomes. -/
theorem c7_amended_codes_distinct_except_notfound
    (st st2 : Store) (actor actor2 : UserT) (pid eid now pid2 eid2 now2 : Nat)
    (hcode : (check_in_post st actor pid eid now).resp.code =
      (check_in_post st2 actor2 pid2 eid2 now2).resp.code)
    (hhttp : (check_in_post st actor pid eid now).resp.http =
      (check_in_post st2 actor2 pid2 eid2 now2).resp.http) :
    (check_in_post st actor pid eid now).outcome =
      (check_in_post st2 actor2 pid2 eid2 now2).outcome ∨
    ((check_in_post st actor pid eid now).outcome = Outcome.PersonNotFound ∧
      (check_in_post st2 actor2 pid2 eid2 now2).outcome = Outcome.EventNotFound) ∨
    ((check_in_post st actor pid eid now).outcome = Outcome.EventNotFound ∧
      (check_in_post st2 actor2 pid2 eid2 now2).outcome = Outcome.PersonNotFound) := by
  have m1 := check_in_resp_meta st actor pid eid now
  have m2 := check_in_resp_meta st2 actor2 pid2 eid2 now2
  rw [m1.1, m2.1] at hcode
  rw [m1.2, m2.2] at hhttp
  revert hcode hhttp
  generalize (check_in_post st actor pid eid now).outcome = o
  generalize (check_in_post st2 actor2 pid2 eid2 now2).outcome = o2
  cases o <;> cases o2 <;> decide

/-- Witness for C7 amended: two identical calls share code and status
and (leftmost disjunct) the same outcome. -/
theorem c7_amended_codes_witness :
    (check_in_post wStore wStaff 1 2 150).outcome =
      (check_in_post wStore wStaff 1 2 150).outcome ∨
    ((check_in_post wStore wStaff 1 2 150).outcome = Outcome.PersonNotFound ∧
      (check_in_post wStore wStaff 1 2 150).outcome = Outcome.EventNotFound) ∨
    ((check_in_post wStore wStaff 1 2 150).outcome = Outcome.EventNotFound ∧
      (check_in_post wStore wStaff 1 2 150).outcome = Outcome.PersonNotFound) :=
  c7_amended_codes_distinct_except_notfound wStore wStore wStaff wStaff
    1 2 150 1 2 150 rfl rfl

/-- Finding an event by id commutes with retiming every event. -/
theorem retime_find? (st : Store) (a b eid : Nat) :
    (retime_events st a b).events.find? (fun x => x.eid == eid) =
      (st.events.find? (fun x => x.eid == eid)).map
        (fun e => { e with start_time := a, end_time := b }) := by
  show (st.events.map
      (fun e => { e with start_time := a, end_time := b })).find?
      (fun x => x.eid == eid) = _
  rw [List.find?_map]
  rfl

/-- C9: the check-in outcome never consults event activity: it is
unchanged under replacing every event's `[start_time, end_time]` window
and under changing the current time (so `Event.is_active` plays no
role), and no `ScanLog` row the call adds carries the `event_inactive`
result. -/
theorem c9_event_activity_never_checked
    (st : Store) (actor : UserT) (pid eid now now2 a b : Nat) :
    (check_in_post (retime_events st a b) actor pid eid now2).outcome =
      (check_in_post st actor pid eid now).outcome ∧
    (∀ lg ∈ (check_in_post st actor pid eid now).store.scan_logs,
      lg ∈ st.scan_logs ∨ lg.result ≠ ScanResult.event_inactive) := by
  constructor
  · cases hfp : st.people.find? (fun x => x.pid == pid) with
    | none =>
        have hfp2 : (retime_events st a b).people.find?
            (fun x => x.pid == pid) = none := hfp
        simp [check_in_post, hfp, hfp2]
    | some p =>
      have hfp2 : (retime_events st a b).people.find?
          (fun x => x.pid == pid) = some p := hfp
      cases hfe : st.events.find? (fun x => x.eid == eid) with
      | none =>
          have hfe2 : (retime_events st a b).events.find?
              (fun x => x.eid == eid) = none := by
            rw [retime_find?, hfe]; rfl
          simp [check_in_post, hfp, hfp2, hfe, hfe2]
      | some e =>
        obtain ⟨e2, hE⟩ :
            ∃ e2, ({ e with start_time := a, end_time := b } : Event) = e2 :=
          ⟨_, rfl⟩
        have hfe2 : (retime_events st a b).events.find?
            (fun x => x.eid == eid) = some e2 := by
          rw [← hE, retime_find?, hfe]; rfl
        have hstaffEq : ∀ v, is_staff_authorized actor e = v →
            is_staff_authorized actor e2 = v := by
          intro v hv; rw [← hE]; exact hv
        have hwkEq : ∀ v, e.allow_walkins = v → e2.allow_walkins = v := by
          intro v hv; rw [← hE]; exact hv
        have hfullEq : ∀ v, is_full st e = v →
            is_full (retime_events st a b) e2 = v := by
          intro v hv; rw [← hE]; exact hv
        cases hb : is_staff_authorized actor e with
        | false =>
            have hb2 := hstaffEq false hb
            simp [check_in_post, hfp, hfp2, hfe, hfe2, hb, hb2]
        | true =>
          have hb2 := hstaffEq true hb
          cases hft : st.tickets.find?
              (fun x => x.personId == p.pid && x.eventId == e.eid) with
          | some t =>
            have hft2 : (retime_events st a b).tickets.find?
                (fun x => x.personId == p.pid && x.eventId == e2.eid) =
                some t := by
              rw [← hE]; exact hft
            cases hts : t.status with
            | issued =>
                have hdup : (t.status == TicketStatus.checked_in) = false := by
                  rw [hts]; rfl
                have hcan : (t.status == TicketStatus.canceled) = false := by
                  rw [hts]; rfl
                simp [check_in_post, check_in_tail, hfp, hfp2, hfe, hfe2, hb,
                  hb2, hft, hft2, hdup, hcan]
            | expired =>
                have hdup : (t.status == TicketStatus.checked_in) = false := by
                  rw [hts]; rfl
                have hcan : (t.status == TicketStatus.canceled) = false := by
                  rw [hts]; rfl
                simp [check_in_post, check_in_tail, hfp, hfp2, hfe, hfe2, hb,
                  hb2, hft, hft2, hdup, hcan]
            | checked_in =>
                have hdup : (t.status == TicketStatus.checked_in) = true := by
                  rw [hts]; rfl
                simp [check_in_post, check_in_tail, hfp, hfp2, hfe, hfe2, hb,
                  hb2, hft, hft2, hdup]
            | canceled =>
                have hdup : (t.status == TicketStatus.checked_in) = false := by
                  rw [hts]; rfl
                have hcan : (t.status == TicketStatus.canceled) = true := by
                  rw [hts]; rfl
                simp [check_in_post, check_in_tail, hfp, hfp2, hfe, hfe2, hb,
                  hb2, hft, hft2, hdup, hcan]
          | none =>
            have hft2 : (retime_events st a b).tickets.find?
                (fun x => x.personId == p.pid && x.eventId == e2.eid) =
                none := by
              rw [← hE]; exact hft
            cases hwk : e.allow_walkins with
            | false =>
                have hwk2 := hwkEq false hwk
                simp [check_in_post, hfp, hfp2, hfe, hfe2, hb, hb2, hft, hft2,
                  hwk, hwk2]
            | true =>
              have hwk2 := hwkEq true hwk
              cases hfl : is_full st e with
              | true =>
                  have hfl2 := hfullEq true hfl
                  simp [check_in_post, hfp, hfp2, hfe, hfe2, hb, hb2, hft,
                    hft2, hwk, hwk2, hfl, hfl2]
              | false =>
                  have hfl2 := hfullEq false hfl
                  have hdup :
                      (TicketStatus.issued == TicketStatus.checked_in) =
                        false := rfl
                  have hcan :
                      (TicketStatus.issued == TicketStatus.canceled) =
                        false := rfl
                  simp [check_in_post, check_in_tail, hfp, hfp2, hfe, hfe2,
                    hb, hb2, hft, hft2, hwk, hwk2, hfl, hfl2, hdup, hcan]
  · cases hfp : st.people.find? (fun x => x.pid == pid) with
    | none =>
        simp only [check_in_post, hfp, log_scan]
        exact mem_append_singleton_result _ _ (by simp)
    | some p =>
      cases hfe : st.events.find? (fun x => x.eid == eid) with
      | none =>
          simp only [check_in_post, hfp, hfe, log_scan]
          exact mem_append_singleton_result _ _ (by simp)
      | some e =>
        cases hb : is_staff_authorized actor e with
        | false =>
            simp only [check_in_post, hfp, hfe, hb, Bool.false_eq_true,
              if_false]
            exact fun lg h => Or.inl h
        | true =>
          cases hft : st.tickets.find?
              (fun x => x.personId == p.pid && x.eventId == e.eid) with
          | some t =>
            cases hd : t.status == TicketStatus.checked_in with
            | true =>
                simp only [check_in_post, check_in_tail, hfp, hfe, hb, hft,
                  hd, if_true, log_scan]
                exact mem_append_singleton_result _ _ (by simp)
            | false =>
              cases hc : t.status == TicketStatus.canceled with
              | true =>
                  simp only [check_in_post, check_in_tail, hfp, hfe, hb, hft,
                    hd, hc, Bool.false_eq_true, if_false, if_true, log_scan]
                  exact mem_append_singleton_result _ _ (by simp)
              | false =>
                  simp only [check_in_post, check_in_tail, hfp, hfe, hb, hft,
                    hd, hc, Bool.false_eq_true, if_false, if_true, log_scan]
                  exact mem_append_singleton_result _ _ (by simp)
          | none =>
            cases hwk : e.allow_walkins with
            | false =>
                simp only [check_in_post, hfp, hfe, hb, hft, hwk,
                  Bool.false_eq_true, if_false, if_true, log_scan]
                exact mem_append_singleton_result _ _ (by simp)
            | true =>
              cases hfl : is_full st e with
              | true =>
                  simp only [check_in_post, hfp, hfe, hb, hft, hwk, hfl,
                    if_true, log_scan]
                  exact mem_append_singleton_result _ _ (by simp)
              | false =>
                  have hdup :
                      (TicketStatus.issued == TicketStatus.checked_in) =
                        false := rfl
                  have hcan :
                      (TicketStatus.issued == TicketStatus.canceled) =
                        false := rfl
                  simp only [check_in_post, check_in_tail, hfp, hfe, hb, hft,
                    hwk, hfl, hdup, hcan, Bool.false_eq_true, if_false,
                    if_true, log_scan]
                  exact mem_append_singleton_result _ _ (by simp)

/-- Witness for C9: concrete retimed scan keeps its outcome, and the
single appended audit row is not `event_inactive`. -/
theorem c9_event_activity_witness :
    (check_in_post (retime_events wStore 0 0) wStaff 1 2 999).outcome =
      (check_in_post wStore wStaff 1 2 150).outcome ∧
    (∀ lg ∈ (check_in_post wStore wStaff 1 2 150).store.scan_logs,
      lg ∈ wStore.scan_logs ∨ lg.result ≠ ScanResult.event_inactive) :=
  c9_event_activity_never_checked wStore wStaff 1 2 150 999 0 0

/-- C8 amended: the visible-contact map always contains the name, and
contains a contact field exactly when the visibility flag for that field
is set AND the stored value is non-empty; in particular a field not
marked visible never appears. -/
theorem c8_amended_visible_and_nonempty (p : Person) :
    (get_visible_contact p).lookup "name" = some (CVal.str p.name) ∧
    (get_visible_contact p).lookup "email" =
      (if vis_get p.visibility "email" && (p.email != "") then
        some (CVal.str p.email)
      else none) ∧
    (get_visible_contact p).lookup "organization" =
      (if vis_get p.visibility "organization" && (p.organization != "") then
        some (CVal.str p.organization)
      else none) ∧
    (get_visible_contact p).lookup "phone" =
      (if vis_get p.visibility "phone" && (p.phone != "") then
        some (CVal.str p.phone)
      else none) ∧
    (get_visible_contact p).lookup "links" =
      (if vis_get p.visibility "links" && !p.links.isEmpty then
        some (CVal.linkMap p.links)
      else none) := by
  cases h1 : vis_get p.visibility "email" && (p.email != "") <;>
  cases h2 : vis_get p.visibility "organization" && (p.organization != "") <;>
  cases h3 : vis_get p.visibility "phone" && (p.phone != "") <;>
  cases h4 : vis_get p.visibility "links" && !p.links.isEmpty <;>
    simp [get_visible_contact, CVal.truthy, List.filter, List.lookup,
      h1, h2, h3, h4]

end Turnstil
